import Mathlib

/-!
Shallow embedding of the enrichment/ranking core of
`src/prizepicks_scanner.py` (class LivePrizePicksAnalyzer).

Numeric modelling: Python floats are modelled as exact rationals (ℚ), and
Python ints as ℤ.  Python's builtin `round(x, 1)` and the `:.1f` format
specifier are modelled with round-half-up on exact rationals (`roundQ`);
Python uses round-half-to-even on binary floats, which differs only at
exact half-tick values, and every concrete value used in a theorem below
is kept away from those ties.  The bounded random draw of
`random.uniform(-0.15, 0.15)` is modelled as an explicit noise parameter
(one rational per record index), following the spec's instruction to treat
the noise term as an injectable source.  The ESPN live-stats dictionary is
modelled as an association list.  Python's stable `sorted(...)` is
modelled with `List.insertionSort`, which is likewise stable, and a stable
sort's output is uniquely determined by the key preorder and input order.
Display-only fields of the output dicts (`display_line`,
`confidence_display`, `last_updated`) are omitted from the record type;
no claim mentions them.
-/

/-- Python's substring containment: is the first char list a prefix of the
second. Helper for the `in` operator on strings. -/
def charsPre : List Char → List Char → Bool
  | [], _ => true
  | _ :: _, [] => false
  | a :: as, b :: bs => a = b && charsPre as bs

/-- Python's substring containment over char lists: does `needle` occur
contiguously inside `hay`. -/
def charsIn (needle hay : List Char) : Bool :=
  match hay with
  | [] => needle.isEmpty
  | _ :: t => charsPre needle hay || charsIn needle t

/-- Python's `needle in hay` operator on strings. -/
def strIn (needle hay : String) : Bool := charsIn needle.data hay.data

/-- Python's `str.upper()` (ASCII, which covers every string the scanner
compares). -/
def strUpper (s : String) : String := ⟨s.data.map Char.toUpper⟩

/-- Python's `str.lower()` (ASCII). -/
def strLower (s : String) : String := ⟨s.data.map Char.toLower⟩

/-- Floor of a rational as an integer, computed from the normalised
numerator and denominator with flooring integer division. -/
def qfloor (q : ℚ) : ℤ := Int.fdiv q.num q.den

/-- Round-half-up model of Python's `round(x)` (see the header note on
half-to-even ties). -/
def roundQ (q : ℚ) : ℤ := qfloor (q + 1/2)

/-- Model of Python's `round(x, 1)`, used when the scanner stores numeric
fields into the output dict. -/
def round1 (q : ℚ) : ℚ := (roundQ (q * 10) : ℚ) / 10

/-- Model of Python's `f"{x:.1f}"` one-decimal formatting (see the header
note on signed zero and half ties). -/
def fmt1 (q : ℚ) : String :=
  let n : ℤ := roundQ (q * 10)
  let sgn := if n < 0 then "-" else ""
  let m := n.natAbs
  sgn ++ toString (m / 10) ++ "." ++ toString (m % 10)

/-- The `attributes` sub-dict of one PrizePicks projection, as read at
src/prizepicks_scanner.py:147-154.  `player_name` is optional because the
code reads it with `attributes.get("player_name", "Unknown")`; the other
keys are read with a `""` default and so are modelled as plain strings. -/
structure Attrs where
  player_name : Option String
  team : String
  league : String
  position : String
deriving DecidableEq

/-- One raw projection from the PrizePicks API (`stat_type`, `line_score`,
`attributes`), as read at src/prizepicks_scanner.py:143-147.  `attributes`
is `none` when the key is missing or the sub-dict is empty (the code skips
on `if not attributes`). -/
structure RawProjection where
  stat_type : String
  line_score : ℚ
  attributes : Option Attrs
deriving DecidableEq

/-- One player's entry in the ESPN live-stats dictionary built by
`get_live_nfl_stats`: a map from stat keys to season totals, plus the
`games_played`, `position` and `team` entries stored alongside. -/
structure PlayerStats where
  stats : List (String × ℚ)
  games_played : ℚ
  position : String
  team : String
deriving DecidableEq

/-- The live-stats dictionary: player name to stats. -/
abbrev LiveStats := List (String × PlayerStats)

/-- Python dict / association-list lookup. -/
def lookupStr {β : Type} : String → List (String × β) → Option β
  | _, [] => none
  | k, (k', v) :: rest => if k = k' then some v else lookupStr k rest

/-- One enriched prop dict as assembled at src/prizepicks_scanner.py:203-218.
`composite_score` is an `Option` because the key is absent until a ranking
function assigns it (and stays absent on the fallback records). -/
structure PropRec where
  player : String
  stat_type : String
  line : ℚ
  model_projection : ℚ
  edge : ℚ
  edge_pct : ℚ
  team : String
  position : String
  confidence_score : ℤ
  recommendation : String
  commentary : String
  composite_score : Option ℚ
deriving DecidableEq

/-- LivePrizePicksAnalyzer.get_basic_projection
(src/prizepicks_scanner.py:246-257): uses the line as base, applies the
injected noise draw (Python: `random.uniform(-0.15, 0.15)`), clamps at 0. -/
def get_basic_projection (stat_type position : String) (line_score : ℚ)
    (noise : ℚ) : ℚ :=
  max 0 (line_score + line_score * noise)

/-- LivePrizePicksAnalyzer.get_live_nfl_projection
(src/prizepicks_scanner.py:391-416): per-game average of the stored season
total; returns 0 when the player or the stat is absent or the stored total
is 0.  Note: no clamping is performed on this path. -/
def get_live_nfl_projection (player_name stat_type : String)
    (live_stats : LiveStats) : ℚ :=
  match lookupStr player_name live_stats with
  | none => 0
  | some ps =>
    let season_total := (lookupStr (strLower stat_type) ps.stats).getD 0
    if season_total = 0 then 0
    else if 0 < ps.games_played then season_total / ps.games_played else 0

/-- LivePrizePicksAnalyzer.calculate_basic_confidence_score
(src/prizepicks_scanner.py:259-277). -/
def calculate_basic_confidence_score (player_name stat_type : String)
    (edge_pct : ℚ) (live_stats : LiveStats) : ℤ :=
  let confidence : ℤ := 60
  let confidence :=
    if 10 ≤ |edge_pct| then confidence + 20
    else if 5 ≤ |edge_pct| then confidence + 15
    else if 2 ≤ |edge_pct| then confidence + 10
    else confidence
  let confidence :=
    if (lookupStr player_name live_stats).isSome then confidence + 15
    else confidence
  max 1 (min 100 confidence)

/-- The SMASH-tier string template of generate_recommendation
(src/prizepicks_scanner.py:456). -/
def smashStr (edge_pct : ℚ) : String :=
  "🔥 SMASH " ++ (if 0 < edge_pct then "OVER" else "UNDER") ++ " - "
    ++ fmt1 |edge_pct| ++ "% edge"

/-- The strong-tier string template of generate_recommendation
(src/prizepicks_scanner.py:458). -/
def strongStr (edge_pct : ℚ) : String :=
  "✅ " ++ (if 0 < edge_pct then "OVER" else "UNDER") ++ " - Strong "
    ++ fmt1 |edge_pct| ++ "% edge"

/-- The lean-tier string template of generate_recommendation
(src/prizepicks_scanner.py:460). -/
def leanStr (edge_pct : ℚ) : String :=
  "💡 Lean " ++ (if 0 < edge_pct then "OVER" else "UNDER") ++ " - "
    ++ fmt1 |edge_pct| ++ "% edge"

/-- The neutral string template of generate_recommendation
(src/prizepicks_scanner.py:462). -/
def neutralStr (edge_pct : ℚ) : String :=
  "😐 Neutral - " ++ fmt1 edge_pct ++ "% edge, low confidence"

/-- LivePrizePicksAnalyzer.generate_recommendation
(src/prizepicks_scanner.py:452-462). -/
def generate_recommendation (edge_pct : ℚ) (confidence : ℤ) : String :=
  if 15 ≤ |edge_pct| ∧ 75 ≤ confidence then smashStr edge_pct
  else if 10 ≤ |edge_pct| ∧ 70 ≤ confidence then strongStr edge_pct
  else if 5 ≤ |edge_pct| ∧ 60 ≤ confidence then leanStr edge_pct
  else neutralStr edge_pct

/-- LivePrizePicksAnalyzer.generate_basic_commentary
(src/prizepicks_scanner.py:279-297).  As in the source, the `stat_type`
and `confidence` arguments are unused. -/
def generate_basic_commentary (player_name stat_type : String)
    (edge_pct : ℚ) (confidence : ℤ) (live_stats : LiveStats) : String :=
  let direction := if 0 < edge_pct then "OVER" else "UNDER"
  let base :=
    if 8 ≤ |edge_pct| then
      "Strong " ++ direction ++ " play with " ++ fmt1 |edge_pct|
        ++ "% model edge. "
    else if 3 ≤ |edge_pct| then
      "Good " ++ direction ++ " value with " ++ fmt1 |edge_pct| ++ "% edge. "
    else
      "Slight " ++ direction ++ " lean with " ++ fmt1 |edge_pct| ++ "% edge. "
  let data_note :=
    if (lookupStr player_name live_stats).isSome then
      "Based on live ESPN season data. "
    else "Using statistical modeling. "
  base ++ data_note ++ "Monitor for line movement and injury reports."

/-- The relevant_stats allow-list of src/prizepicks_scanner.py:163-169. -/
def relevant_stats : List String :=
  ["passing_yards", "rushing_yards", "receiving_yards",
   "receptions", "passing_touchdowns", "rushing_touchdowns",
   "receiving_touchdowns", "completions", "pass_yards",
   "rush_yards", "rec_yards", "pass_tds", "rush_tds", "rec_tds",
   "yards", "touchdowns", "tds"]

/-- The NFL league filter of src/prizepicks_scanner.py:157. -/
def leagueIsNFL (league : String) : Bool :=
  ["NFL", "FOOTBALL"].any (fun t => strIn t (strUpper league))

/-- The stat-type filter of src/prizepicks_scanner.py:171. -/
def statRelevant (stat_type : String) : Bool :=
  relevant_stats.any (fun t => strIn t (strLower stat_type))

/-- The edge-percent computation of src/prizepicks_scanner.py:186-188:
`edge_pct = (edge / line_score * 100) if line_score > 0 else 0`. -/
def compute_edge_pct (projection line_score : ℚ) : ℚ :=
  if 0 < line_score then (projection - line_score) / line_score * 100 else 0

/-- The projection chosen for one record at src/prizepicks_scanner.py:178-184:
the live projection, or the basic projection when the live one is 0. -/
def projectionOf (live_stats : LiveStats) (noise : ℚ) (proj : RawProjection)
    (attrs : Attrs) : ℚ :=
  let player_name := attrs.player_name.getD "Unknown"
  let live := get_live_nfl_projection player_name proj.stat_type live_stats
  if live = 0 then
    get_basic_projection proj.stat_type attrs.position proj.line_score noise
  else live

/-- One iteration of the enrichment loop of
src/prizepicks_scanner.py:141-220: `none` when the record is skipped by the
attribute / league / stat-type checks, otherwise the assembled prop dict. -/
def processProjection (live_stats : LiveStats) (noise : ℚ)
    (proj : RawProjection) : Option PropRec :=
  match proj.attributes with
  | none => none
  | some attrs =>
    if leagueIsNFL attrs.league = false then none
    else if statRelevant proj.stat_type = false then none
    else
      let player_name := attrs.player_name.getD "Unknown"
      let our_projection := projectionOf live_stats noise proj attrs
      let edge := our_projection - proj.line_score
      let edge_pct := compute_edge_pct our_projection proj.line_score
      let confidence :=
        calculate_basic_confidence_score player_name proj.stat_type
          edge_pct live_stats
      some {
        player := player_name
        stat_type := proj.stat_type
        line := proj.line_score
        model_projection := round1 our_projection
        edge := round1 edge
        edge_pct := round1 edge_pct
        team := attrs.team
        position := attrs.position
        confidence_score := confidence
        recommendation := generate_recommendation edge_pct confidence
        commentary :=
          generate_basic_commentary player_name proj.stat_type edge_pct
            confidence live_stats
        composite_score := none }

/-- The enrichment loop with an explicit record index threading the
injected noise source (one independent draw per record). -/
def enrichFrom (live_stats : LiveStats) (noise : ℕ → ℚ) :
    ℕ → List RawProjection → List PropRec
  | _, [] => []
  | i, p :: ps =>
    match processProjection live_stats (noise i) p with
    | none => enrichFrom live_stats noise (i + 1) ps
    | some e => e :: enrichFrom live_stats noise (i + 1) ps

/-- The full enrichment loop over a batch (src/prizepicks_scanner.py:141-220). -/
def enrichBatch (live_stats : LiveStats) (noise : ℕ → ℚ)
    (data : List RawProjection) : List PropRec :=
  enrichFrom live_stats noise 0 data

/-- First-stage filter of analyze_and_rank_picks_flexible
(src/prizepicks_scanner.py:303): confidence ≥ 70 and |edge| ≥ 5. -/
def flexQuality1 (all_props : List PropRec) : List PropRec :=
  all_props.filter
    (fun p => decide (70 ≤ p.confidence_score) && decide ((5:ℚ) ≤ |p.edge_pct|))

/-- Second-stage relaxation (src/prizepicks_scanner.py:306-308): when the
first stage has fewer than 10 picks, also admit confidence ≥ 60 and
|edge| ≥ 2. -/
def flexQuality2 (all_props : List PropRec) : List PropRec :=
  if (flexQuality1 all_props).length < 10 then
    flexQuality1 all_props ++
      all_props.filter
        (fun p =>
          decide (60 ≤ p.confidence_score) && decide ((2:ℚ) ≤ |p.edge_pct|))
  else flexQuality1 all_props

/-- Third-stage relaxation (src/prizepicks_scanner.py:310-313): when still
fewer than 5 picks, admit any record with |edge| ≥ 1 (no confidence
requirement). -/
def flexQuality3 (all_props : List PropRec) : List PropRec :=
  if (flexQuality2 all_props).length < 5 then
    flexQuality2 all_props ++
      all_props.filter (fun p => decide ((1:ℚ) ≤ |p.edge_pct|))
  else flexQuality2 all_props

/-- The duplicate-removal pass of src/prizepicks_scanner.py:315-322, keyed
on (player, stat_type), keeping first occurrences. -/
def dedupAux (seen : List (String × String)) :
    List PropRec → List PropRec
  | [] => []
  | p :: ps =>
    if (p.player, p.stat_type) ∈ seen then dedupAux seen ps
    else p :: dedupAux ((p.player, p.stat_type) :: seen) ps

/-- The deduplicated candidate list of the flexible ranker. -/
def flexCandidates (all_props : List PropRec) : List PropRec :=
  dedupAux [] (flexQuality3 all_props)

/-- The composite score of the flexible ranker
(src/prizepicks_scanner.py:325-328): min(|edge|*3, 30) + confidence*0.7. -/
def composite_flex (p : PropRec) : ℚ :=
  min (|p.edge_pct| * 3) 30 + (p.confidence_score : ℚ) * (7/10)

/-- Assignment of the flexible composite score into the prop dict. -/
def withCompositeFlex (p : PropRec) : PropRec :=
  { p with composite_score := some (composite_flex p) }

/-- The sort key read back by `sorted(..., key=lambda x: x["composite_score"])`.
Every record reaching the sort has the key assigned. -/
def compositeKey (p : PropRec) : ℚ := p.composite_score.getD 0

/-- The descending-composite-score ordering used by both rankers
(src/prizepicks_scanner.py:330 and 514, `reverse=True`). -/
def byCompositeDesc (a b : PropRec) : Prop := compositeKey b ≤ compositeKey a

instance : DecidableRel byCompositeDesc :=
  fun a b => inferInstanceAs (Decidable (compositeKey b ≤ compositeKey a))

instance : IsTotal PropRec byCompositeDesc :=
  ⟨fun a b => le_total (compositeKey b) (compositeKey a)⟩

instance : IsTrans PropRec byCompositeDesc :=
  ⟨fun _ _ _ h1 h2 => le_trans h2 h1⟩

/-- The stable descending sort of the flexible ranker
(src/prizepicks_scanner.py:330), before truncation. -/
def flexSorted (all_props : List PropRec) : List PropRec :=
  List.insertionSort byCompositeDesc
    ((flexCandidates all_props).map withCompositeFlex)

/-- LivePrizePicksAnalyzer.analyze_and_rank_picks_flexible
(src/prizepicks_scanner.py:299-332): staged filters, dedup, composite
scores, stable descending sort, truncate to 25. -/
def analyze_and_rank_picks_flexible (all_props : List PropRec) :
    List PropRec :=
  (flexSorted all_props).take 25

/-- The quality filter of the strict ranker
(src/prizepicks_scanner.py:500-505): confidence ≥ 60 and |edge| ≥ 3. -/
def strictQuality (all_props : List PropRec) : List PropRec :=
  all_props.filter
    (fun p => decide (60 ≤ p.confidence_score) && decide ((3:ℚ) ≤ |p.edge_pct|))

/-- The composite score of the strict ranker
(src/prizepicks_scanner.py:508-511): min(|edge|*3, 45) + confidence*0.55. -/
def composite_strict (p : PropRec) : ℚ :=
  min (|p.edge_pct| * 3) 45 + (p.confidence_score : ℚ) * (11/20)

/-- Assignment of the strict composite score into the prop dict. -/
def withCompositeStrict (p : PropRec) : PropRec :=
  { p with composite_score := some (composite_strict p) }

/-- LivePrizePicksAnalyzer.analyze_and_rank_picks
(src/prizepicks_scanner.py:497-517): filter, composite scores, stable
descending sort, truncate to 20. -/
def analyze_and_rank_picks (all_props : List PropRec) : List PropRec :=
  (List.insertionSort byCompositeDesc
    ((strictQuality all_props).map withCompositeStrict)).take 20

/-- LivePrizePicksAnalyzer.create_fallback_props
(src/prizepicks_scanner.py:334-389): the fixed hand-authored fallback
records (275.5 = 551/2, 285.2 = 1426/5 and so on; the dicts carry no
`synthetic` key and no composite score). -/
def create_fallback_props : List PropRec :=
  [{ player := "Josh Allen"
     stat_type := "passing_yards"
     line := 551/2
     model_projection := 1426/5
     edge := 97/10
     edge_pct := 7/2
     team := "BUF"
     position := "QB"
     confidence_score := 75
     recommendation := "💡 Lean OVER - 3.5% edge"
     commentary := "Good OVER value with 3.5% edge. Using statistical modeling. Monitor for line movement and injury reports."
     composite_score := none },
   { player := "Christian McCaffrey"
     stat_type := "rushing_yards"
     line := 171/2
     model_projection := 476/5
     edge := 97/10
     edge_pct := 113/10
     team := "SF"
     position := "RB"
     confidence_score := 82
     recommendation := "🔥 SMASH OVER - 11.3% edge"
     commentary := "Strong OVER play with 11.3% model edge. Using statistical modeling. Monitor for line movement and injury reports."
     composite_score := none },
   { player := "Travis Kelce"
     stat_type := "receiving_yards"
     line := 151/2
     model_projection := 821/10
     edge := 33/5
     edge_pct := 87/10
     team := "KC"
     position := "TE"
     confidence_score := 79
     recommendation := "✅ OVER - Strong 8.7% edge"
     commentary := "Strong OVER play with 8.7% model edge. Using statistical modeling. Monitor for line movement and injury reports."
     composite_score := none }]

/-- The final-selection step of get_live_prizepicks_props
(src/prizepicks_scanner.py:226-234): fallback when no props survived
enrichment, otherwise the flexible ranking of the enriched batch. -/
def finalSelection (all_props : List PropRec) : List PropRec :=
  if all_props.isEmpty then create_fallback_props
  else analyze_and_rank_picks_flexible all_props

/-- The whole in-scope pipeline on one batch: enrichment followed by final
selection. -/
def pipelineFinal (live_stats : LiveStats) (noise : ℕ → ℚ)
    (data : List RawProjection) : List PropRec :=
  finalSelection (enrichBatch live_stats noise data)

/-- Concrete enriched record with confidence below every threshold and no
edge, so every ranking stage discards it. -/
def pNoEdge : PropRec :=
  { player := "Edgeless Eddie", stat_type := "rushing_yards", line := 50,
    model_projection := 50, edge := 0, edge_pct := 0, team := "AAA",
    position := "RB", confidence_score := 50, recommendation := "r",
    commentary := "c", composite_score := none }

/-- Concrete enriched record with confidence 50 (below the claimed hard
filter) but |edge| = 3. -/
def pLowConf : PropRec :=
  { player := "Lowell Lowman", stat_type := "receiving_yards", line := 60,
    model_projection := 62, edge := 2, edge_pct := 3, team := "BBB",
    position := "WR", confidence_score := 50, recommendation := "r",
    commentary := "c", composite_score := none }

/-- Concrete record for the tie-break analysis: |edge| = 10, confidence 70;
its flexible composite score is min(30,30) + 49 = 79. -/
def pTieA : PropRec :=
  { player := "Aaron Alpha", stat_type := "passing_yards", line := 200,
    model_projection := 220, edge := 20, edge_pct := 10, team := "CCC",
    position := "QB", confidence_score := 70, recommendation := "r",
    commentary := "c", composite_score := none }

/-- Concrete record for the tie-break analysis: |edge| = 20, confidence 70;
its flexible composite score is also min(60,30) + 49 = 79, but its edge
magnitude is larger than pTieA's. -/
def pTieB : PropRec :=
  { player := "Brock Beta", stat_type := "rushing_yards", line := 100,
    model_projection := 120, edge := 20, edge_pct := 20, team := "DDD",
    position := "RB", confidence_score := 70, recommendation := "r",
    commentary := "c", composite_score := none }

/-- Concrete record passing the first-stage flexible filter. -/
def pQuality : PropRec :=
  { player := "Quentin Quality", stat_type := "passing_yards", line := 250,
    model_projection := 275, edge := 25, edge_pct := 10, team := "EEE",
    position := "QB", confidence_score := 80, recommendation := "r",
    commentary := "c", composite_score := none }

/-- Concrete raw projection whose attributes carry no player_name. -/
def noNameProj : RawProjection :=
  { stat_type := "passing_yards", line_score := 100,
    attributes := some
      { player_name := none, team := "DAL", league := "NFL",
        position := "QB" } }

/-- Concrete raw projection with a missing/empty attributes dict. -/
def noAttrsProj : RawProjection :=
  { stat_type := "passing_yards", line_score := 100, attributes := none }

/-- Concrete raw projection from a non-NFL league. -/
def nbaProj : RawProjection :=
  { stat_type := "points", line_score := 30,
    attributes := some
      { player_name := some "Hoops Guy", team := "LAL", league := "NBA",
        position := "C" } }

/-- Concrete raw projection with an unrecognized stat type. -/
def badStatProj : RawProjection :=
  { stat_type := "tackles", line_score := 8,
    attributes := some
      { player_name := some "Tackle Guy", team := "DAL", league := "NFL",
        position := "LB" } }

/-- Concrete NFL raw projection with a zero market line. -/
def zeroLineProj : RawProjection :=
  { stat_type := "receiving_yards", line_score := 0,
    attributes := some
      { player_name := some "Zero Zed", team := "NYJ", league := "NFL",
        position := "WR" } }

/-- Concrete live-stats table holding a negative stored season total
(negative rushing totals do occur in real NFL data). -/
def negLiveStats : LiveStats :=
  [("Neg Back",
    { stats := [("rushing_yards", -10)], games_played := 2,
      position := "RB", team := "FFF" })]

/-- Concrete live-stats table with only non-negative stored totals. -/
def posLiveStats : LiveStats :=
  [("Good Back",
    { stats := [("rushing_yards", 40)], games_played := 4,
      position := "RB", team := "GGG" })]

/-- Concrete noise source: constantly zero. -/
def noiseA : ℕ → ℚ := fun _ => 0

/-- Concrete noise source agreeing with noiseA on the first five indices
only. -/
def noiseB : ℕ → ℚ := fun i => if i < 5 then 0 else 1

/-- Concrete batch of ten copies of the quality record, enough to satisfy
the first-stage flexible filter without relaxation. -/
def tenQuality : List PropRec := List.replicate 10 pQuality

/-- Helper: association-list lookup only returns stored pairs. -/
theorem lookupStr_mem {β : Type} {k : String} {v : β} :
    ∀ {l : List (String × β)}, lookupStr k l = some v → (k, v) ∈ l := by
  intro l
  induction l with
  | nil => intro h; simp [lookupStr] at h
  | cons kv rest ih =>
    intro h
    obtain ⟨k', v'⟩ := kv
    by_cases hk : k = k'
    · simp only [lookupStr, if_pos hk] at h
      subst hk
      rw [Option.some_inj] at h
      subst h
      exact List.mem_cons_self _ _
    · simp only [lookupStr, if_neg hk] at h
      exact List.mem_cons_of_mem _ (ih h)

/-- Helper: the duplicate-removal pass only emits records of its input. -/
theorem mem_of_mem_dedupAux {p : PropRec} :
    ∀ {l : List PropRec} {seen : List (String × String)},
      p ∈ dedupAux seen l → p ∈ l := by
  intro l
  induction l with
  | nil => intro seen h; simp [dedupAux] at h
  | cons q rest ih =>
    intro seen h
    simp only [dedupAux] at h
    split_ifs at h with hq
    · exact List.mem_cons_of_mem _ (ih h)
    · rcases List.mem_cons.mp h with h1 | h2
      · exact h1 ▸ List.mem_cons_self _ _
      · exact List.mem_cons_of_mem _ (ih h2)

/-- Helper: every record admitted by the second-stage flexible filter has
|edge_pct| at least 1. -/
theorem edge_bound_flexQuality2 {p : PropRec} {props : List PropRec}
    (h : p ∈ flexQuality2 props) : 1 ≤ |p.edge_pct| := by
  have hq1 : ∀ q : PropRec, q ∈ flexQuality1 props → 1 ≤ |q.edge_pct| := by
    intro q hq
    have := (List.mem_filter.mp hq).2
    rw [Bool.and_eq_true, decide_eq_true_eq, decide_eq_true_eq] at this
    linarith [this.2]
  simp only [flexQuality2] at h
  split_ifs at h
  · rcases List.mem_append.mp h with h1 | h2
    · exact hq1 p h1
    · have := (List.mem_filter.mp h2).2
      rw [Bool.and_eq_true, decide_eq_true_eq, decide_eq_true_eq] at this
      linarith [this.2]
  · exact hq1 p h

/-- Helper: every record admitted by the third-stage flexible filter has
|edge_pct| at least 1. -/
theorem edge_bound_flexQuality3 {p : PropRec} {props : List PropRec}
    (h : p ∈ flexQuality3 props) : 1 ≤ |p.edge_pct| := by
  simp only [flexQuality3] at h
  split_ifs at h
  · rcases List.mem_append.mp h with h1 | h2
    · exact edge_bound_flexQuality2 h1
    · have := (List.mem_filter.mp h2).2
      rw [decide_eq_true_eq] at this
      exact this
  · exact edge_bound_flexQuality2 h

/-- C1: when the market line is strictly positive the computed edge percent
is exactly (projection − line) / line * 100, and when the line is zero it
is 0 — the guarded expression at src/prizepicks_scanner.py:188 — and the
enriched record produced for a zero-line projection carries edge_pct = 0
(no division by zero occurs; the model is total over exact rationals, so
no NaN or infinity can appear). -/
theorem edge_pct_formula (projection line_score : ℚ) (live_stats : LiveStats)
    (noise : ℚ) (proj : RawProjection) :
    (0 < line_score →
      compute_edge_pct projection line_score
        = (projection - line_score) / line_score * 100) ∧
    (line_score = 0 → compute_edge_pct projection line_score = 0) ∧
    (∀ e, processProjection live_stats noise proj = some e →
      proj.line_score = 0 → e.edge_pct = 0) := by
  refine ⟨fun h => by simp [compute_edge_pct, h],
          fun h => by simp [compute_edge_pct, h], ?_⟩
  intro e he hline
  cases hattrs : proj.attributes with
  | none => simp [processProjection, hattrs] at he
  | some attrs =>
    simp only [processProjection, hattrs] at he
    by_cases h1 : leagueIsNFL attrs.league = false
    · rw [if_pos h1] at he
      exact absurd he (by simp)
    · rw [if_neg h1] at he
      by_cases h2 : statRelevant proj.stat_type = false
      · rw [if_pos h2] at he
        exact absurd he (by simp)
      · rw [if_neg h2] at he
        rw [Option.some_inj] at he
        have hpct : e.edge_pct
            = round1 (compute_edge_pct
                (projectionOf live_stats noise proj attrs) proj.line_score) := by
          rw [← he]
        rw [hpct, hline]
        have hz : compute_edge_pct
            (projectionOf live_stats noise proj attrs) 0 = 0 := by
          simp [compute_edge_pct]
        rw [hz]
        have hf : Int.fdiv 1 2 = 0 := by decide
        norm_num [round1, roundQ, qfloor, hf]

/-- C1 witness: concrete instances of all three conjuncts. -/
theorem edge_pct_formula_witness :
    ((0:ℚ) < 2 ∧ compute_edge_pct 3 2 = (3 - 2) / 2 * 100) ∧
    compute_edge_pct 3 0 = 0 ∧
    ((processProjection [] 0 zeroLineProj).isSome = true ∧
      ∀ e, processProjection [] 0 zeroLineProj = some e → e.edge_pct = 0) := by
  refine ⟨⟨by norm_num, (edge_pct_formula 3 2 [] 0 zeroLineProj).1 (by norm_num)⟩,
          (edge_pct_formula 3 0 [] 0 zeroLineProj).2.1 rfl, ?_, ?_⟩
  · have hL : leagueIsNFL "NFL" = true := by decide
    have hS : statRelevant "receiving_yards" = true := by decide
    norm_num [processProjection, zeroLineProj, hL, hS]
  · intro e he
    exact (edge_pct_formula 3 0 [] 0 zeroLineProj).2.2 e he rfl

/-- C10: for every input the basic confidence score lies in [60, 95], so a
record scored by calculate_basic_confidence_score can never be discarded by
a confidence-at-least-60 filter branch. -/
theorem basic_confidence_in_range (player_name stat_type : String)
    (edge_pct : ℚ) (live_stats : LiveStats) :
    60 ≤ calculate_basic_confidence_score player_name stat_type edge_pct
        live_stats ∧
    calculate_basic_confidence_score player_name stat_type edge_pct
        live_stats ≤ 95 ∧
    ¬ calculate_basic_confidence_score player_name stat_type edge_pct
        live_stats < 60 := by
  simp only [calculate_basic_confidence_score]
  split_ifs <;> refine ⟨by norm_num, by norm_num, by norm_num⟩

/-- C3: both rankers return at most the configured maximum number of picks
(25 flexible, 20 strict) and their outputs are sorted in descending order
of the stored composite score. -/
theorem ranking_bounded_and_sorted (all_props : List PropRec) :
    (analyze_and_rank_picks_flexible all_props).length ≤ 25 ∧
    List.Sorted byCompositeDesc (analyze_and_rank_picks_flexible all_props) ∧
    (analyze_and_rank_picks all_props).length ≤ 20 ∧
    List.Sorted byCompositeDesc (analyze_and_rank_picks all_props) := by
  refine ⟨?_, ?_, ?_, ?_⟩
  · exact List.length_take_le 25 (flexSorted all_props)
  · exact List.Pairwise.sublist (List.take_sublist _ _)
      (List.sorted_insertionSort byCompositeDesc _)
  · exact List.length_take_le 20 (List.insertionSort byCompositeDesc
      ((strictQuality all_props).map withCompositeStrict))
  · exact List.Pairwise.sublist (List.take_sublist _ _)
      (List.sorted_insertionSort byCompositeDesc _)

/-- C2 counterexample: a non-empty batch whose single record is discarded
by every ranking stage (confidence 50, edge 0) makes the pipeline return
the empty array — not the synthetic fallback set the claim promises (whose
entries, moreover, carry no synthetic flag at all: see
create_fallback_props). -/
theorem fallback_claim_counterexample :
    finalSelection [pNoEdge] = [] ∧ create_fallback_props ≠ [] := by
  constructor
  · norm_num [finalSelection, analyze_and_rank_picks_flexible, flexSorted,
      flexCandidates, flexQuality3, flexQuality2, flexQuality1, dedupAux,
      List.filter, pNoEdge]
  · simp [create_fallback_props]

/-- C2 amended: only an empty enriched batch triggers the fixed non-empty
3-entry fallback set (whose entries carry no synthetic flag); a non-empty
batch in which every record is discarded even after relaxation yields the
empty list instead. -/
theorem fallback_only_for_empty_batch :
    finalSelection [] = create_fallback_props ∧
    create_fallback_props.length = 3 ∧
    (∀ l : List PropRec, l ≠ [] →
      analyze_and_rank_picks_flexible l = [] → finalSelection l = []) := by
  refine ⟨by simp [finalSelection], rfl, ?_⟩
  intro l hl hrank
  rw [finalSelection, if_neg (by simpa [List.isEmpty_iff] using hl)]
  exact hrank

/-- C2 witness: the amended theorem applied to the concrete one-record
batch that every ranking stage discards. -/
theorem fallback_only_for_empty_batch_witness :
    [pNoEdge] ≠ ([] : List PropRec) ∧
    analyze_and_rank_picks_flexible [pNoEdge] = [] ∧
    finalSelection [pNoEdge] = [] := by
  have hrank : analyze_and_rank_picks_flexible [pNoEdge] = [] := by
    norm_num [analyze_and_rank_picks_flexible, flexSorted, flexCandidates,
      flexQuality3, flexQuality2, flexQuality1, dedupAux, List.filter, pNoEdge]
  exact ⟨by simp, hrank,
    fallback_only_for_empty_batch.2.2 [pNoEdge] (by simp) hrank⟩

/-- Helper: every record of the flexible ranker output is the
composite-score assignment of some stage-3 candidate. -/
theorem mem_flexQuality3_of_mem_output {p : PropRec} {props : List PropRec}
    (h : p ∈ analyze_and_rank_picks_flexible props) :
    ∃ q ∈ flexQuality3 props, p = withCompositeFlex q := by
  have h0 : p ∈ (flexSorted props).take 25 := h
  have h1 : p ∈ flexSorted props := List.mem_of_mem_take h0
  have h2 : p ∈ (flexCandidates props).map withCompositeFlex :=
    (List.perm_insertionSort byCompositeDesc _).mem_iff.mp h1
  obtain ⟨q, hq, hpq⟩ := List.mem_map.mp h2
  exact ⟨q, mem_of_mem_dedupAux hq, hpq.symm⟩

/-- C4 counterexample: a single record with confidenceScore 50 (well below
the claimed hard threshold of 60) and |edgePercent| 3 is not discarded: the
third relaxation stage admits it regardless of confidence, and it reaches
the ranker output. -/
theorem hard_filter_counterexample :
    (analyze_and_rank_picks_flexible [pLowConf]).map
      PropRec.confidence_score = [50] := by
  have hcand : flexCandidates [pLowConf] = [pLowConf] := by
    norm_num [flexCandidates, flexQuality3, flexQuality2, flexQuality1,
      dedupAux, List.filter, pLowConf]
  have hsort : flexSorted [pLowConf] = [withCompositeFlex pLowConf] := by
    rw [flexSorted, hcand]
    simp [List.insertionSort, List.orderedInsert]
  rw [analyze_and_rank_picks_flexible, hsort,
    List.take_of_length_le (by simp)]
  simp [withCompositeFlex, pLowConf]

/-- C4 amended: the base hard filter of the flexible ranker keeps records
with confidenceScore at least 70 and |edgePercent| at least 5; only when
that stage yields fewer than 10 records is the 60/2 stage added, and only
when the total is still below 5 is any record with |edgePercent| at least 1
admitted regardless of confidence; consequently every output record has
|edgePercent| at least 1, and no relaxation happens once the earlier stages
meet their counts. -/
theorem flexible_filter_stages (all_props : List PropRec) :
    (∀ p ∈ analyze_and_rank_picks_flexible all_props, 1 ≤ |p.edge_pct|) ∧
    (10 ≤ (flexQuality1 all_props).length →
      flexQuality3 all_props = flexQuality1 all_props) ∧
    (5 ≤ (flexQuality2 all_props).length →
      flexQuality3 all_props = flexQuality2 all_props) := by
  refine ⟨?_, ?_, ?_⟩
  · intro p hp
    obtain ⟨q, hq, hpq⟩ := mem_flexQuality3_of_mem_output hp
    have hb := edge_bound_flexQuality3 hq
    rw [hpq]
    exact hb
  · intro h
    have h2 : flexQuality2 all_props = flexQuality1 all_props := by
      rw [flexQuality2, if_neg (by omega)]
    rw [flexQuality3, h2, if_neg (by omega)]
  · intro h
    rw [flexQuality3, if_neg (by omega)]

/-- C4 witness: concrete discharges of all three conjuncts — a quality
record reaching the output, and a ten-record batch for which no relaxation
stage fires. -/
theorem flexible_filter_stages_witness :
    (withCompositeFlex pQuality ∈ analyze_and_rank_picks_flexible [pQuality] ∧
      1 ≤ |(withCompositeFlex pQuality).edge_pct|) ∧
    (10 ≤ (flexQuality1 tenQuality).length ∧
      flexQuality3 tenQuality = flexQuality1 tenQuality) ∧
    (5 ≤ (flexQuality2 tenQuality).length ∧
      flexQuality3 tenQuality = flexQuality2 tenQuality) := by
  have hcand : flexCandidates [pQuality] = [pQuality] := by
    norm_num [flexCandidates, flexQuality3, flexQuality2, flexQuality1,
      dedupAux, List.filter, pQuality]
  have hsort : flexSorted [pQuality] = [withCompositeFlex pQuality] := by
    rw [flexSorted, hcand]
    simp [List.insertionSort, List.orderedInsert]
  have hout : analyze_and_rank_picks_flexible [pQuality]
      = [withCompositeFlex pQuality] := by
    rw [analyze_and_rank_picks_flexible, hsort,
      List.take_of_length_le (by simp)]
  have hmem : withCompositeFlex pQuality
      ∈ analyze_and_rank_picks_flexible [pQuality] := by
    rw [hout]; exact List.mem_singleton_self _
  have hq1 : flexQuality1 tenQuality = tenQuality := by
    rw [flexQuality1, List.filter_eq_self]
    intro a ha
    have ha' : a = pQuality := List.eq_of_mem_replicate ha
    rw [ha']
    norm_num [pQuality]
  have hlen1 : 10 ≤ (flexQuality1 tenQuality).length := by
    rw [hq1, tenQuality]; simp
  have hlen2 : 5 ≤ (flexQuality2 tenQuality).length := by
    rw [flexQuality2, if_neg (by omega), hq1, tenQuality]; simp
  exact ⟨⟨hmem, (flexible_filter_stages [pQuality]).1 _ hmem⟩,
    ⟨hlen1, (flexible_filter_stages tenQuality).2.1 hlen1⟩,
    ⟨hlen2, (flexible_filter_stages tenQuality).2.2 hlen2⟩⟩

/-- C5 counterexample: two candidate records with equal composite scores
(both 79) appear in the ranker output in their input order — the record
with |edgePercent| 10 before the one with |edgePercent| 20 — so ties are
not broken by descending |edgePercent| as the claim states. -/
theorem tie_break_counterexample :
    composite_flex pTieA = composite_flex pTieB ∧
    (analyze_and_rank_picks_flexible [pTieA, pTieB]).map
      PropRec.edge_pct = [10, 20] := by
  have heq : composite_flex pTieA = composite_flex pTieB := by
    norm_num [composite_flex, pTieA, pTieB]
  have hcand : flexCandidates [pTieA, pTieB] = [pTieA, pTieB] := by
    norm_num [flexCandidates, flexQuality3, flexQuality2, flexQuality1,
      dedupAux, List.filter, pTieA, pTieB]
    all_goals decide
  have hsort : flexSorted [pTieA, pTieB]
      = [withCompositeFlex pTieA, withCompositeFlex pTieB] := by
    rw [flexSorted, hcand]
    norm_num [List.insertionSort, List.orderedInsert, byCompositeDesc,
      compositeKey, withCompositeFlex, composite_flex, pTieA, pTieB]
  refine ⟨heq, ?_⟩
  rw [analyze_and_rank_picks_flexible, hsort,
    List.take_of_length_le (by simp)]
  simp [withCompositeFlex, pTieA, pTieB]

/-- C5 amended: the sort of the flexible ranker is stable and uses the
composite score as its only key: whenever record a precedes record b among
the scored candidates and a is at least b under the descending-composite
order (in particular whenever their composite scores are tied), the pair
keeps that relative order in the sorted list — no |edgePercent| or
subject-name tie-break is applied, and the output order is a deterministic
function of the input records. -/
theorem ranking_tie_stability (all_props : List PropRec) (a b : PropRec)
    (hab : byCompositeDesc a b)
    (hsub : List.Sublist [a, b]
      ((flexCandidates all_props).map withCompositeFlex)) :
    List.Sublist [a, b] (flexSorted all_props) :=
  List.pair_sublist_insertionSort hab hsub

/-- C5 witness: the stability theorem applied to the concrete tied pair. -/
theorem ranking_tie_stability_witness :
    byCompositeDesc (withCompositeFlex pTieA) (withCompositeFlex pTieB) ∧
    List.Sublist [withCompositeFlex pTieA, withCompositeFlex pTieB]
      ((flexCandidates [pTieA, pTieB]).map withCompositeFlex) ∧
    List.Sublist [withCompositeFlex pTieA, withCompositeFlex pTieB]
      (flexSorted [pTieA, pTieB]) := by
  have hcand : flexCandidates [pTieA, pTieB] = [pTieA, pTieB] := by
    norm_num [flexCandidates, flexQuality3, flexQuality2, flexQuality1,
      dedupAux, List.filter, pTieA, pTieB]
    all_goals decide
  have hab : byCompositeDesc (withCompositeFlex pTieA)
      (withCompositeFlex pTieB) := by
    norm_num [byCompositeDesc, compositeKey, withCompositeFlex,
      composite_flex, pTieA, pTieB]
  have hsub : List.Sublist [withCompositeFlex pTieA, withCompositeFlex pTieB]
      ((flexCandidates [pTieA, pTieB]).map withCompositeFlex) := by
    rw [hcand]
    simp
  exact ⟨hab, hsub, ranking_tie_stability [pTieA, pTieB] _ _ hab hsub⟩

/-- C6 counterexample: the live-stats projection path performs no clamping:
with a stored season total of -10 over 2 games the projection is -5, a
negative projected value. -/
theorem projection_negative_counterexample :
    get_live_nfl_projection "Neg Back" "rushing_yards" negLiveStats = -5 := by
  have hlow : strLower "rushing_yards" = "rushing_yards" := by decide
  norm_num [get_live_nfl_projection, negLiveStats, lookupStr, hlow]

/-- C6 amended: the basic fallback projection is clamped and always
non-negative, for any line and any noise draw; the live-stats projection is
not clamped, but is non-negative whenever every stored season total in the
live-stats table is non-negative. -/
theorem projection_nonneg_conditional (stat_type position player stat : String)
    (line noise : ℚ) (live : LiveStats)
    (hlive : ∀ entry ∈ live, ∀ kv ∈ entry.2.stats, 0 ≤ kv.2) :
    0 ≤ get_basic_projection stat_type position line noise ∧
    0 ≤ get_live_nfl_projection player stat live := by
  refine ⟨le_max_left 0 _, ?_⟩
  unfold get_live_nfl_projection
  cases hlk : lookupStr player live with
  | none => exact le_refl 0
  | some ps =>
    cases hs : lookupStr (strLower stat) ps.stats with
    | none =>
      simp [hs]
    | some v =>
      have hv : 0 ≤ v :=
        hlive (player, ps) (lookupStr_mem hlk) (strLower stat, v)
          (lookupStr_mem hs)
      simp only [hs, Option.getD_some]
      split_ifs with h0 hg
      · exact le_refl 0
      · exact div_nonneg hv (le_of_lt hg)
      · exact le_refl 0

/-- C6 witness: the amended theorem applied to a concrete all-non-negative
live-stats table. -/
theorem projection_nonneg_conditional_witness :
    (∀ entry ∈ posLiveStats, ∀ kv ∈ entry.2.stats, 0 ≤ kv.2) ∧
    0 ≤ get_basic_projection "rushing_yards" "RB" 50 0 ∧
    0 ≤ get_live_nfl_projection "Good Back" "rushing_yards" posLiveStats := by
  have hpos : ∀ entry ∈ posLiveStats, ∀ kv ∈ entry.2.stats, 0 ≤ kv.2 := by
    intro entry he kv hkv
    rw [posLiveStats, List.mem_singleton] at he
    subst he
    simp only [List.mem_singleton] at hkv
    subst hkv
    norm_num
  obtain ⟨h1, h2⟩ := projection_nonneg_conditional "rushing_yards" "RB"
    "Good Back" "rushing_yards" 50 0 posLiveStats hpos
  exact ⟨hpos, h1, h2⟩

/-- Helper: strings with different first characters are different. -/
theorem stringNe_of_headNe {a b : String}
    (h : a.data.head? ≠ b.data.head?) : a ≠ b :=
  fun hab => h (by rw [hab])

/-- Helper: the SMASH template always starts with the fire character. -/
theorem smashStr_head (e : ℚ) : (smashStr e).data.head? = some '🔥' := by
  rw [smashStr]
  simp only [String.data_append]
  rfl

/-- Helper: the strong template always starts with the check character. -/
theorem strongStr_head (e : ℚ) : (strongStr e).data.head? = some '✅' := by
  rw [strongStr]
  simp only [String.data_append]
  rfl

/-- Helper: the lean template always starts with the bulb character. -/
theorem leanStr_head (e : ℚ) : (leanStr e).data.head? = some '💡' := by
  rw [leanStr]
  simp only [String.data_append]
  rfl

/-- Helper: the neutral template always starts with the neutral-face
character. -/
theorem neutralStr_head (e : ℚ) : (neutralStr e).data.head? = some '😐' := by
  rw [neutralStr]
  simp only [String.data_append]
  rfl

/-- C7 counterexample: at edgePercent 2.5 with confidence 100 the code
emits the neutral label, although the claim's tier table places every
|edgePercent| at least 2 in a non-neutral ("slight lean") tier. -/
theorem recommendation_threshold_counterexample :
    generate_recommendation (5/2) 100 = neutralStr (5/2) ∧
    neutralStr (5/2) = "😐 Neutral - 2.5% edge, low confidence" := by
  constructor
  · have habs : |(5/2 : ℚ)| = 5/2 := abs_of_pos (by norm_num)
    rw [generate_recommendation, if_neg (by rw [habs]; norm_num),
      if_neg (by rw [habs]; norm_num), if_neg (by rw [habs]; norm_num)]
  · have h : roundQ ((5/2 : ℚ) * 10) = 25 := by
      norm_num [roundQ, qfloor]
      decide
    rw [neutralStr]
    simp only [fmt1, h]
    decide

/-- C7 amended: the recommendation label is a pure function of edgePercent
and confidenceScore whose tiers are: SMASH when |edgePercent| ≥ 15 and
confidence ≥ 75; strong when not SMASH and |edgePercent| ≥ 10 and
confidence ≥ 70; lean when neither and |edgePercent| ≥ 5 and confidence
≥ 60; and the neutral label exactly when no tier condition holds (all
boundaries inclusive). -/
theorem recommendation_tiers (e : ℚ) (c : ℤ) :
    (15 ≤ |e| ∧ 75 ≤ c → generate_recommendation e c = smashStr e) ∧
    (¬(15 ≤ |e| ∧ 75 ≤ c) → 10 ≤ |e| ∧ 70 ≤ c →
      generate_recommendation e c = strongStr e) ∧
    (¬(15 ≤ |e| ∧ 75 ≤ c) → ¬(10 ≤ |e| ∧ 70 ≤ c) → 5 ≤ |e| ∧ 60 ≤ c →
      generate_recommendation e c = leanStr e) ∧
    (generate_recommendation e c = neutralStr e ↔
      ¬(15 ≤ |e| ∧ 75 ≤ c) ∧ ¬(10 ≤ |e| ∧ 70 ≤ c) ∧ ¬(5 ≤ |e| ∧ 60 ≤ c)) := by
  refine ⟨fun h => by rw [generate_recommendation, if_pos h],
    fun h1 h2 => by rw [generate_recommendation, if_neg h1, if_pos h2],
    fun h1 h2 h3 => by
      rw [generate_recommendation, if_neg h1, if_neg h2, if_pos h3], ?_⟩
  constructor
  · intro hn
    by_cases c1 : 15 ≤ |e| ∧ 75 ≤ c
    · rw [generate_recommendation, if_pos c1] at hn
      exact absurd hn (stringNe_of_headNe
        (by rw [smashStr_head, neutralStr_head]; decide))
    by_cases c2 : 10 ≤ |e| ∧ 70 ≤ c
    · rw [generate_recommendation, if_neg c1, if_pos c2] at hn
      exact absurd hn (stringNe_of_headNe
        (by rw [strongStr_head, neutralStr_head]; decide))
    by_cases c3 : 5 ≤ |e| ∧ 60 ≤ c
    · rw [generate_recommendation, if_neg c1, if_neg c2, if_pos c3] at hn
      exact absurd hn (stringNe_of_headNe
        (by rw [leanStr_head, neutralStr_head]; decide))
    exact ⟨c1, c2, c3⟩
  · rintro ⟨h1, h2, h3⟩
    rw [generate_recommendation, if_neg h1, if_neg h2, if_neg h3]

/-- C7 witness: one concrete input per tier, with every tier hypothesis
discharged. -/
theorem recommendation_tiers_witness :
    generate_recommendation 20 80 = smashStr 20 ∧
    generate_recommendation 12 72 = strongStr 12 ∧
    generate_recommendation 6 65 = leanStr 6 ∧
    generate_recommendation 1 100 = neutralStr 1 := by
  refine ⟨(recommendation_tiers 20 80).1 ⟨by norm_num, by norm_num⟩,
    (recommendation_tiers 12 72).2.1 (by rintro ⟨h, -⟩; norm_num at h)
      ⟨by norm_num, by norm_num⟩,
    (recommendation_tiers 6 65).2.2.1 (by rintro ⟨h, -⟩; norm_num at h)
      (by rintro ⟨h, -⟩; norm_num at h) ⟨by norm_num, by norm_num⟩,
    (recommendation_tiers 1 100).2.2.2.mpr
      ⟨by rintro ⟨h, -⟩; norm_num at h, by rintro ⟨h, -⟩; norm_num at h,
       by rintro ⟨h, -⟩; norm_num at h⟩⟩

/-- C8 counterexample: a raw record whose attributes carry no player_name
is not skipped — it is enriched under the placeholder name "Unknown". -/
theorem unknown_placeholder_counterexample :
    (processProjection [] 0 noNameProj).map PropRec.player
      = some "Unknown" := by
  have hL : leagueIsNFL "NFL" = true := by decide
  have hS : statRelevant "passing_yards" = true := by decide
  norm_num [processProjection, noNameProj, hL, hS]

/-- C8 amended: the enrichment loop is a total function (it never raises);
records with missing or empty attributes, a non-NFL league, or an
unrecognized stat type are skipped and produce no enriched record; but a
record missing only the subject name is enriched under the placeholder
name "Unknown" rather than skipped. -/
theorem enrichment_skip_semantics (live : LiveStats) (noise : ℚ)
    (proj : RawProjection) :
    (proj.attributes = none → processProjection live noise proj = none) ∧
    (∀ attrs, proj.attributes = some attrs →
      leagueIsNFL attrs.league = false →
      processProjection live noise proj = none) ∧
    (∀ attrs, proj.attributes = some attrs →
      leagueIsNFL attrs.league = true →
      statRelevant proj.stat_type = false →
      processProjection live noise proj = none) ∧
    (∀ attrs, proj.attributes = some attrs → attrs.player_name = none →
      leagueIsNFL attrs.league = true → statRelevant proj.stat_type = true →
      (processProjection live noise proj).map PropRec.player
        = some "Unknown") := by
  refine ⟨?_, ?_, ?_, ?_⟩
  · intro h
    simp [processProjection, h]
  · intro attrs h hl
    simp [processProjection, h, hl]
  · intro attrs h hl hs
    simp [processProjection, h, hl, hs]
  · intro attrs h hp hl hs
    simp [processProjection, h, hl, hs, hp]

/-- C8 witness: the skip and placeholder cases discharged on concrete raw
records. -/
theorem enrichment_skip_semantics_witness :
    processProjection [] 0 noAttrsProj = none ∧
    processProjection [] 0 nbaProj = none ∧
    processProjection [] 0 badStatProj = none ∧
    (processProjection [] 0 noNameProj).map PropRec.player
      = some "Unknown" := by
  refine ⟨(enrichment_skip_semantics [] 0 noAttrsProj).1 rfl,
    (enrichment_skip_semantics [] 0 nbaProj).2.1
      { player_name := some "Hoops Guy", team := "LAL", league := "NBA",
        position := "C" } rfl (by decide),
    (enrichment_skip_semantics [] 0 badStatProj).2.2.1
      { player_name := some "Tackle Guy", team := "DAL", league := "NFL",
        position := "LB" } rfl (by decide) (by decide),
    (enrichment_skip_semantics [] 0 noNameProj).2.2.2
      { player_name := none, team := "DAL", league := "NFL",
        position := "QB" } rfl rfl (by decide) (by decide)⟩

/-- Helper: the enrichment loop depends only on the noise values at the
indices of the processed batch. -/
theorem enrichFrom_congr (live : LiveStats) (noise1 noise2 : ℕ → ℚ) :
    ∀ (data : List RawProjection) (start : ℕ),
      (∀ j < data.length, noise1 (start + j) = noise2 (start + j)) →
      enrichFrom live noise1 start data = enrichFrom live noise2 start data := by
  intro data
  induction data with
  | nil => intro start h; rfl
  | cons p ps ih =>
    intro start h
    have h0 : noise1 start = noise2 start := by
      have := h 0 (by simp)
      simpa using this
    have hrest : ∀ j < ps.length,
        noise1 (start + 1 + j) = noise2 (start + 1 + j) := by
      intro j hj
      have hj' : j + 1 < (p :: ps).length := by simp; omega
      have := h (j + 1) hj'
      have harith : start + 1 + j = start + (j + 1) := by omega
      rw [harith]
      exact this
    simp only [enrichFrom, h0]
    rw [ih (start + 1) hrest]

/-- C9: with the noise source fixed (the same draws for the indices of the
batch), enrichment and the full pipeline are deterministic — two runs on
the same batch produce identical records, hence identical composite scores
and an identical output ordering. -/
theorem pipeline_deterministic (live : LiveStats) (noise1 noise2 : ℕ → ℚ)
    (data : List RawProjection)
    (h : ∀ j < data.length, noise1 j = noise2 j) :
    enrichBatch live noise1 data = enrichBatch live noise2 data ∧
    pipelineFinal live noise1 data = pipelineFinal live noise2 data := by
  have he : enrichBatch live noise1 data = enrichBatch live noise2 data := by
    rw [enrichBatch, enrichBatch]
    exact enrichFrom_congr live noise1 noise2 data 0 (by simpa using h)
  refine ⟨he, ?_⟩
  rw [pipelineFinal, pipelineFinal, he]

/-- C9 witness: two concrete noise sources agreeing on the batch indices
give identical pipeline outputs. -/
theorem pipeline_deterministic_witness :
    (∀ j < ([noNameProj] : List RawProjection).length, noiseA j = noiseB j) ∧
    pipelineFinal [] noiseA [noNameProj]
      = pipelineFinal [] noiseB [noNameProj] := by
  have h : ∀ j < ([noNameProj] : List RawProjection).length,
      noiseA j = noiseB j := by
    intro j hj
    rw [List.length_singleton, Nat.lt_one_iff] at hj
    subst hj
    norm_num [noiseA, noiseB]
  exact ⟨h, (pipeline_deterministic [] noiseA noiseB [noNameProj] h).2⟩
